import Mathlib

/-!
Verification of the wasap-api Session Lifecycle Engine.

This file gives a shallow embedding of the parts of the repository that the
verified properties talk about:

* JS string helpers used by the HTTP layer and the service
  (trim, the `[()\s-]` strip class, MSISDN normalisation, `^\d{8,15}$`);
* the API-key registry (`api-keys.service.ts`, `assertActive`);
* the persistent session lock (`whatsapp.lock.repository.ts`, `acquire`);
* the reconnect backoff (`whatsapp.service.ts`, `scheduleReconnect`);
* the session supervisor operations `getQr` and `sendText` together with the
  `POST /message/:apiKey/send` route handler (`whatsapp.routes.ts`);
* the credential store JSON round-trip
  (`whatsapp.prisma.repository.ts`, `toJsonValue` / `fromJsonValue`).

External effects (the Baileys socket, timers, random jitter, transaction
faults) are passed in explicitly as oracle values so that every definition is
an executable function of its inputs.
-/

namespace Wasap

/-! ## JavaScript string helpers -/

/-- The JS `\s` character class (also the set stripped by `String.trim`):
ASCII whitespace, NBSP, the Unicode space separators, line/paragraph
separators and the BOM. -/
def isJsSpace (c : Char) : Bool :=
  c == ' ' || c == '\t' || c == '\n' || c.toNat == 0x0B || c.toNat == 0x0C ||
  c == '\r' || c.toNat == 0xA0 || c.toNat == 0x1680 ||
  (0x2000 ≤ c.toNat && c.toNat ≤ 0x200A) ||
  c.toNat == 0x2028 || c.toNat == 0x2029 || c.toNat == 0x202F ||
  c.toNat == 0x205F || c.toNat == 0x3000 || c.toNat == 0xFEFF

/-- `String.prototype.trim` on a character list. -/
def jsTrimList (l : List Char) : List Char :=
  ((l.dropWhile isJsSpace).reverse.dropWhile isJsSpace).reverse

/-- `String.prototype.trim`. -/
def jsTrim (s : String) : String :=
  String.mk (jsTrimList s.data)

/-- Membership in the strip class `[()\s-]` of the MSISDN normalisation. -/
def isStrippedChar (c : Char) : Bool :=
  c == '(' || c == ')' || c == '-' || isJsSpace c

/-- `.replace(/[()\s-]/g, '')`. -/
def stripPunct (l : List Char) : List Char :=
  l.filter (fun c => !isStrippedChar c)

/-- `if (to.startsWith('+')) to = to.slice(1)`. -/
def dropLeadingPlus : List Char → List Char
  | '+' :: rest => rest
  | l => l

/-- `if (to.startsWith('0')) to = '62' + to.slice(1)`. -/
def zeroToCountry : List Char → List Char
  | '0' :: rest => '6' :: '2' :: rest
  | l => l

/-- MSISDN normalisation as performed both by the send route handler
(`whatsapp.routes.ts` lines 191-193) and by `WhatsappService.sendText`
(`whatsapp.service.ts` lines 850-852):
`to.trim().replace(/[()\s-]/g, '')`, drop one leading `+`, replace a
leading `0` by `62`. -/
def normalizeMsisdn (s : String) : String :=
  String.mk (zeroToCountry (dropLeadingPlus (stripPunct (jsTrimList s.data))))

/-- The test `/^\d{8,15}$/.test(to)`. -/
def toValid (s : String) : Bool :=
  s.data.all Char.isDigit && 8 ≤ s.data.length && s.data.length ≤ 15

/-! ## API-key registry (`api-keys.service.ts`) -/

/-- A stored API key record. -/
structure ApiKeyRec where
  key : String
  isActive : Bool
  deriving DecidableEq, Repr

/-- `repository.findByKey`: unique lookup by exact key. -/
def findByKey (reg : List ApiKeyRec) (k : String) : Option ApiKeyRec :=
  reg.find? (fun r => r.key == k)

/-- `ApiKeysService.assertActive`, instrumented with a flag recording
whether `repository.findByKey` was invoked.  The source:
trim; if the trimmed key is falsy, throw `API key not registered`;
otherwise look the key up and throw the same message unless the record
exists and `isActive`. -/
def assertActiveWithLookup (reg : List ApiKeyRec) (key : String) :
    Except String ApiKeyRec × Bool :=
  let normalized := jsTrim key
  if normalized = "" then
    (Except.error "API key not registered", false)
  else
    match findByKey reg normalized with
    | none => (Except.error "API key not registered", true)
    | some record =>
      if record.isActive then (Except.ok record, true)
      else (Except.error "API key not registered", true)

/-- `ApiKeysService.assertActive` (result only). -/
def assertActive (reg : List ApiKeyRec) (key : String) : Except String ApiKeyRec :=
  (assertActiveWithLookup reg key).1

/-! ## Session lock (`whatsapp.lock.repository.ts`) -/

/-- A `WhatsappSessionLock` row.  `acquiredAt` is a JS epoch-millisecond
timestamp, modelled as an integer. -/
structure LockRow where
  apiKey : String
  ownerId : String
  acquiredAt : Int
  deriving DecidableEq, Repr

/-- Outcome of the surrounding Prisma transaction: it either completes, or
fails with a `PrismaClientKnownRequestError` carrying a code, or fails with
some other error. -/
inductive TxFault where
  | success
  | knownError (code : String)
  | otherError
  deriving DecidableEq, Repr

/-- `tx.whatsappSessionLock.findUnique({ where: { apiKey } })`. -/
def findLock (locks : List LockRow) (apiKey : String) : Option LockRow :=
  locks.find? (fun r => r.apiKey == apiKey)

/-- Update the unique row for `apiKey` with a new owner and timestamp. -/
def writeLock (locks : List LockRow) (apiKey ownerId : String) (t : Int) :
    List LockRow :=
  locks.map (fun r =>
    if r.apiKey == apiKey then { r with ownerId := ownerId, acquiredAt := t } else r)

/-- `PrismaWhatsappLockRepository.acquire`.  Inside one transaction:
create the row when none exists; refresh `acquiredAt` when the caller
already owns it; steal the row when `acquiredAt < now - ttlMs`; return
false otherwise.  A `P2034` known request error is caught and turned into
`false`; every other fault is rethrown. -/
def lockAcquire (locks : List LockRow) (apiKey ownerId : String)
    (ttlMs now : Int) (fault : TxFault) : Except TxFault (Bool × List LockRow) :=
  match fault with
  | .success =>
    let staleBefore := now - ttlMs
    match findLock locks apiKey with
    | none => Except.ok (true, locks ++ [⟨apiKey, ownerId, now⟩])
    | some existing =>
      if existing.ownerId = ownerId then
        Except.ok (true, writeLock locks apiKey ownerId now)
      else if existing.acquiredAt < staleBefore then
        Except.ok (true, writeLock locks apiKey ownerId now)
      else
        Except.ok (false, locks)
  | .knownError code =>
    if code = "P2034" then Except.ok (false, locks)
    else Except.error (.knownError code)
  | .otherError => Except.error .otherError

/-- `PrismaWhatsappLockRepository.touch`: `updateMany` on the rows matching
both the key and the owner, setting `acquiredAt` to now. -/
def lockTouch (locks : List LockRow) (apiKey ownerId : String) (now : Int) :
    List LockRow :=
  locks.map (fun r =>
    if r.apiKey == apiKey && r.ownerId == ownerId then { r with acquiredAt := now } else r)

/-- `PrismaWhatsappLockRepository.release`: `deleteMany` on key and owner. -/
def lockRelease (locks : List LockRow) (apiKey ownerId : String) : List LockRow :=
  locks.filter (fun r => !(r.apiKey == apiKey && r.ownerId == ownerId))

/-- Modelled from the spec: `getOwner(apiKey) → ownerId | null`.  The Prisma
implementation of this `IWhatsappLockRepository` member is not part of the
sources; the spec describes it as returning the current lock row's owner. -/
def lockGetOwner (locks : List LockRow) (apiKey : String) : Option String :=
  (findLock locks apiKey).map (fun r => r.ownerId)

/-- `WhatsappService.lockTtlMs = 5 * 60 * 1000`. -/
def lockTtlMs : Int := 5 * 60 * 1000

/-! ## Reconnect backoff (`whatsapp.service.ts`, `scheduleReconnect`) -/

/-- `Math.min(30_000, 1000 * 2 ** Math.min(attempt - 1, 5))`. -/
def reconnectBaseDelay (attempt : Nat) : Nat :=
  min 30000 (1000 * 2 ^ (min (attempt - 1) 5))

/-- The scheduled delay: base delay plus `Math.floor(Math.random() * 500)`,
the jitter being passed in explicitly. -/
def reconnectDelay (attempt jitter : Nat) : Nat :=
  reconnectBaseDelay attempt + jitter

/-! ## Session supervisor (`whatsapp.service.ts`) -/

/-- `WhatsappSessionStatus`. -/
inductive WaStatus where
  | CONNECTED
  | DISCONNECTED
  | QR
  | LOGGED_OUT
  | ERROR
  deriving DecidableEq, Repr

/-- A `WhatsappSession` database row.  The credential blob is tracked only
by presence here; its JSON content is modelled separately for the
credential-store round-trip. -/
structure SessionRow where
  id : Nat
  apiKey : String
  displayName : Option String
  status : WaStatus
  hasCreds : Bool
  deriving DecidableEq, Repr

/-- The Baileys socket handle, reduced to the one observable the supervisor
reads: the bound user identity (`socket.user`). -/
structure Sock where
  user : Option String
  deriving DecidableEq, Repr

/-- The in-memory `ManagedSession`.  Waiter lists are tracked by length. -/
structure MState where
  info : SessionRow
  status : WaStatus
  qr : Option String
  socket : Option Sock
  lockHeld : Bool
  qrWaiters : Nat
  connectionWaiters : Nat
  deriving DecidableEq, Repr

/-- The persistent plus in-process state a request acts on. -/
structure World where
  reg : List ApiKeyRec
  rows : List SessionRow
  locks : List LockRow
  managed : List (String × MState)
  now : Int
  nextId : Nat
  deriving DecidableEq, Repr

/-- External outcomes a single request can observe: this process's lock
owner identity, the lock transaction fault, the result of `makeWASocket`,
whether a `connection.update` with `open` (binding `user`) arrives while
waiting, the first `qr` event, the id returned by `sendMessage`, and whether
`getOwner` rejects. -/
structure Env where
  lockOwnerId : String
  acquireFault : TxFault
  makeSocket : Except String Sock
  openUser : Option String
  qrEvent : Option String
  sendMessageId : Option String
  getOwnerFails : Bool

/-- `prisma.whatsappSession.findUnique({ where: { apiKey } })`. -/
def findRow (rows : List SessionRow) (apiKey : String) : Option SessionRow :=
  rows.find? (fun r => r.apiKey == apiKey)

/-- `prisma.whatsappSession.update({ where: { id }, data: { status } })`. -/
def updateRowStatus (rows : List SessionRow) (sessionId : Nat) (st : WaStatus) :
    List SessionRow :=
  rows.map (fun r => if r.id == sessionId then { r with status := st } else r)

/-- Mark the root credential blob present (`saveCreds` after `initAuthCreds`). -/
def markCreds (rows : List SessionRow) (sessionId : Nat) : List SessionRow :=
  rows.map (fun r => if r.id == sessionId then { r with hasCreds := true } else r)

/-- `this.sessions.get(apiKey)`. -/
def getManaged (m : List (String × MState)) (k : String) : Option MState :=
  (m.find? (fun p => p.1 == k)).map (fun p => p.2)

/-- `this.sessions.set(apiKey, state)`. -/
def setManaged (m : List (String × MState)) (k : String) (st : MState) :
    List (String × MState) :=
  if (m.find? (fun p => p.1 == k)).isSome then
    m.map (fun p => if p.1 == k then (k, st) else p)
  else m ++ [(k, st)]

/-- The truthiness test `state.socket?.user`. -/
def sockUser (st : MState) : Option String :=
  st.socket.bind (fun s => s.user)

/-- `PrismaWhatsappRepository.ensureSession`: upsert by `apiKey`, writing
`displayName ?? null` on update and creating a fresh row (status default
`DISCONNECTED`, no credentials) otherwise. -/
def ensureSession (w : World) (apiKey : String) (displayName : Option String) :
    SessionRow × World :=
  match findRow w.rows apiKey with
  | some r =>
    let updated : SessionRow := { r with displayName := displayName }
    (updated,
     { w with rows := w.rows.map (fun x => if x.apiKey == apiKey then updated else x) })
  | none =>
    let created : SessionRow := ⟨w.nextId, apiKey, displayName, .DISCONNECTED, false⟩
    (created, { w with rows := w.rows ++ [created], nextId := w.nextId + 1 })

/-- A failure raised by the service layer: the `Error` message together with
the optional `statusCode` property stamped on the error object. -/
structure ServiceErr where
  message : String
  statusCode : Option Nat
  deriving DecidableEq, Repr

/-- `WhatsappService.createSocket`: ensure root credentials exist (persisting
fresh ones when absent), call `makeWASocket` and store the socket on the
state.  On a construction failure: persist status `ERROR`, set the in-memory
status, reject the pending QR waiters and rethrow. -/
def createSocket (w : World) (env : Env) (state : MState) :
    Except (ServiceErr × World) (MState × World) :=
  let w1 :=
    if state.info.hasCreds then w
    else { w with rows := markCreds w.rows state.info.id }
  match env.makeSocket with
  | .error msg =>
    let stErr := { state with status := .ERROR, qrWaiters := 0 }
    .error (⟨msg, none⟩,
      { w1 with rows := updateRowStatus w1.rows state.info.id .ERROR,
                managed := setManaged w1.managed state.info.apiKey stErr })
  | .ok sock =>
    let st := { state with socket := some sock }
    .ok (st, { w1 with managed := setManaged w1.managed state.info.apiKey st })

/-- The `connectPromise` body of `initializeSocket`: run `createSocket`; on
failure release the lock (when held) and rethrow; after the promise settles
successfully, refresh the lock when held. -/
def runConnect (w : World) (env : Env) (state : MState) :
    Except (ServiceErr × World) (MState × World) :=
  let k := state.info.apiKey
  match createSocket w env state with
  | .error (e, w2) =>
    if state.lockHeld then
      let stAfter :=
        match getManaged w2.managed k with
        | some st => { st with lockHeld := false }
        | none => { state with lockHeld := false }
      .error (e, { w2 with locks := lockRelease w2.locks k env.lockOwnerId,
                           managed := setManaged w2.managed k stAfter })
    else .error (e, w2)
  | .ok (state2, w2) =>
    if state2.lockHeld then
      .ok (state2, { w2 with locks := lockTouch w2.locks k env.lockOwnerId w2.now })
    else .ok (state2, w2)

/-- `WhatsappService.initializeSocket`: obtain-or-create the
`ManagedSession`; return it at once when a socket with a bound user is live;
otherwise acquire the session lock when not already held — returning the
socketless state when acquisition is denied — and run the connect attempt. -/
def initializeSocket (w : World) (env : Env) (session : SessionRow) :
    Except (ServiceErr × World) (MState × World) :=
  let state0 :=
    match getManaged w.managed session.apiKey with
    | some st => { st with info := session }
    | none => ⟨session, session.status, none, none, false, 0, 0⟩
  let w0 := { w with managed := setManaged w.managed session.apiKey state0 }
  if (sockUser state0).isSome then .ok (state0, w0)
  else if state0.lockHeld then
    let w1 := { w0 with locks := lockTouch w0.locks session.apiKey env.lockOwnerId w0.now }
    runConnect w1 env state0
  else
    match lockAcquire w0.locks session.apiKey env.lockOwnerId lockTtlMs w0.now
        env.acquireFault with
    | .error _ => .error (⟨"PrismaClientError", none⟩, w0)
    | .ok (false, locks1) => .ok (state0, { w0 with locks := locks1 })
    | .ok (true, locks1) =>
      let state1 := { state0 with lockHeld := true }
      runConnect
        { w0 with locks := locks1,
                  managed := setManaged w0.managed session.apiKey state1 }
        env state1

/-- The effect of a `connection.update` event with `connection = open` and a
bound user: clear the buffered QR, persist status `CONNECTED`, refresh the
lock when held, and drain the waiter lists. -/
def applyOpenEvent (w : World) (env : Env) (state : MState) (u : String) :
    MState × World :=
  let st := { state with socket := some ⟨some u⟩, qr := none, status := .CONNECTED,
                         qrWaiters := 0, connectionWaiters := 0 }
  ( st,
    { w with rows := updateRowStatus w.rows state.info.id .CONNECTED,
             locks :=
               if state.lockHeld then
                 lockTouch w.locks state.info.apiKey env.lockOwnerId w.now
               else w.locks,
             managed := setManaged w.managed state.info.apiKey st } )

/-- `WhatsappService.waitUntilConnected`: immediately succeed when the
socket already has a bound user; otherwise succeed iff an `open` event
arrives before the deadline (`none` models the timeout rejection). -/
def waitUntilConnected (w : World) (env : Env) (state : MState) :
    Option (MState × World) :=
  if (sockUser state).isSome then some (state, w)
  else
    match state.socket, env.openUser with
    | some _, some u => some (applyOpenEvent w env state u)
    | _, _ => none

/-- What `sendText` hands to the upstream adapter on success
(`socket.sendMessage(jid, { text })`), together with the returned id. -/
structure SendOk where
  jid : String
  text : String
  messageId : String
  deriving DecidableEq, Repr

/-- `WhatsappService.sendText`: validate the key, fetch the session row,
fail 409 on `LOGGED_OUT`, initialise the socket, fail 423 (with the lock
owner's identity) when this process holds neither the lock nor a live user
binding, wait for the connection (fail 503), normalise and validate the
MSISDN (fail 400), then send and refresh the lock. -/
def sendText (w : World) (env : Env) (apiKey toArg text : String) :
    Except (ServiceErr × World) (SendOk × World) :=
  match assertActive w.reg apiKey with
  | .error m => .error (⟨m, none⟩, w)
  | .ok record =>
    match findRow w.rows record.key with
    | none => .error (⟨"Whatsapp session not found", none⟩, w)
    | some session =>
      if session.status = .LOGGED_OUT then
        .error (⟨"Session is logged out", some 409⟩, w)
      else
        match initializeSocket w env session with
        | .error (e, w1) => .error (e, w1)
        | .ok (state, w1) =>
          if !state.lockHeld && !(sockUser state).isSome then
            let owner :=
              if env.getOwnerFails then none
              else lockGetOwner w1.locks session.apiKey
            let msg :=
              match owner with
              | some o =>
                "Session is handled by another instance (" ++ o ++
                  "). Use sticky routing by apiKey or single instance."
              | none =>
                "Session is handled by another instance. Use sticky routing by apiKey or single instance."
            .error (⟨msg, some 423⟩, w1)
          else
            match waitUntilConnected w1 env state with
            | none => .error (⟨"Session not connected", some 503⟩, w1)
            | some (state2, w2) =>
              match sockUser state2 with
              | none => .error (⟨"Session not connected", some 503⟩, w2)
              | some _ =>
                let msisdn := normalizeMsisdn toArg
                if !toValid msisdn then
                  .error (⟨"Invalid 'to' (use digits, 8-15, with country code)",
                           some 400⟩, w2)
                else
                  let jid := msisdn ++ "@s.whatsapp.net"
                  let messageId := env.sendMessageId.getD ""
                  let w3 :=
                    if state2.lockHeld then
                      { w2 with locks :=
                          lockTouch w2.locks session.apiKey env.lockOwnerId w2.now }
                    else w2
                  .ok (⟨jid, text, messageId⟩, w3)

/-- The `WhatsappQrResult` returned by `getQr`.  A missing `qr` field is
`none`. -/
structure WhatsappQrResult where
  apiKey : String
  status : WaStatus
  qr : Option String
  deriving DecidableEq, Repr

/-- `WhatsappService.getQr`: validate the key, upsert the session row,
return `{status: LOGGED_OUT}` without touching socket or lock when the row
is logged out; otherwise initialise the socket and return the connected
status, the buffered QR, or wait for the first QR event (timeout fails). -/
def getQr (w : World) (env : Env) (apiKey : String) (displayName : Option String) :
    Except (ServiceErr × World) (WhatsappQrResult × World) :=
  match assertActive w.reg apiKey with
  | .error m => .error (⟨m, none⟩, w)
  | .ok record =>
    let nk := record.key
    let su := ensureSession w nk displayName
    let session := su.1
    let w1 := su.2
    if session.status = .LOGGED_OUT then
      .ok (⟨nk, .LOGGED_OUT, none⟩, w1)
    else
      match initializeSocket w1 env session with
      | .error (e, w2) => .error (e, w2)
      | .ok (state, w2) =>
        if state.status = .CONNECTED then .ok (⟨nk, .CONNECTED, none⟩, w2)
        else
          match state.qr with
          | some q => .ok (⟨nk, .QR, some q⟩, w2)
          | none =>
            match env.qrEvent with
            | some q =>
              let st := { state with qr := some q, status := .QR }
              .ok (⟨nk, .QR, some q⟩,
                { w2 with rows := updateRowStatus w2.rows session.id .QR,
                          managed := setManaged w2.managed nk st })
            | none => .error (⟨"QR code generation timeout", none⟩, w2)

/-! ## Send route handler (`whatsapp.routes.ts`, `POST /message/:apiKey/send`) -/

/-- A JSON response envelope. -/
inductive RouteBody where
  | success (messageId : String)
  | error (message : String)
  deriving DecidableEq, Repr

/-- An HTTP response of the route handler. -/
structure RouteResp where
  status : Nat
  body : RouteBody
  deriving DecidableEq, Repr

/-- The `POST /message/:apiKey/send` handler: coerce the body fields,
normalise the MSISDN, run the basic validation (with its own error
messages), call the service, and map failures — `statusCode === 503`,
the two known messages, and a 500 fallback for everything else. -/
def sendRouteHandler (w : World) (env : Env) (apiKey : String)
    (bodyTo bodyText : Option String) : RouteResp × World :=
  let rawTo := bodyTo.getD ""
  let toNorm := normalizeMsisdn rawTo
  let text := bodyText.getD ""
  let tv := toValid toNorm
  let textValid := decide (0 < text.length) && decide (text.length ≤ 1000)
  if !tv || !textValid then
    ( ⟨400, .error (if !tv then "Invalid 'to' (use digits, 8-15)"
                    else "Invalid 'text' (1-1000 chars)")⟩, w )
  else
    match sendText w env apiKey toNorm text with
    | .ok (res, w1) => (⟨200, .success res.messageId⟩, w1)
    | .error (e, w1) =>
      if e.statusCode = some 503 then
        (⟨503, .error "Session not connected"⟩, w1)
      else if e.message = "API key not registered" then
        (⟨403, .error e.message⟩, w1)
      else if e.message = "Whatsapp session not found" then
        (⟨404, .error e.message⟩, w1)
      else
        (⟨500, .error "Internal server error"⟩, w1)

/-! ## Credential store serialisation
(`whatsapp.prisma.repository.ts`, `toJsonValue` / `fromJsonValue`)

Credential values are JSON trees whose leaves may be binary byte buffers.
`saveCreds` stores `JSON.parse(JSON.stringify(value, BufferJSON.replacer))`
and `loadCreds` returns `JSON.parse(JSON.stringify(stored), BufferJSON.reviver)`.
-/

/-- A JSON value as handled by the credential store, extended with the
binary byte-buffer leaves (`Buffer`/`Uint8Array`) that credentials carry
before serialisation.  Bytes are naturals (tree well-formedness — each byte
below 256 — is a separate predicate). -/
inductive JVal where
  | null
  | bool (b : Bool)
  | num (n : Int)
  | str (s : String)
  | buf (bytes : List Nat)
  | arr (items : List JVal)
  | obj (fields : List (String × JVal))

/-- The base64 alphabet. -/
def b64alphabet : List Char :=
  "ABCDEFGHIJKLMNOPQRSTUVWXYZabcdefghijklmnopqrstuvwxyz0123456789+/".data

/-- Sextet to base64 character. -/
def b64char (n : Nat) : Char :=
  b64alphabet.getD n 'A'

/-- Base64 character back to its sextet. -/
def b64index (c : Char) : Nat :=
  b64alphabet.indexOf c

/-- Base64-encode a byte list (`Buffer.prototype.toString('base64')`),
three bytes to four characters with `=` padding. -/
def b64encodeList : List Nat → List Char
  | [] => []
  | [a] => [b64char (a / 4), b64char (a % 4 * 16), '=', '=']
  | [a, b] => [b64char (a / 4), b64char (a % 4 * 16 + b / 16), b64char (b % 16 * 4), '=']
  | a :: b :: c :: rest =>
    b64char (a / 4) :: b64char (a % 4 * 16 + b / 16) ::
      b64char (b % 16 * 4 + c / 64) :: b64char (c % 64) :: b64encodeList rest

/-- Base64 encoding as a string. -/
def b64encode (bytes : List Nat) : String :=
  String.mk (b64encodeList bytes)

/-- Base64-decode four characters at a time, honouring `=` padding
(`Buffer.from(s, 'base64')` on well-formed input). -/
def b64decodeList : List Char → List Nat
  | c1 :: c2 :: c3 :: c4 :: rest =>
    if c3 = '=' then [b64index c1 * 4 + b64index c2 / 16]
    else if c4 = '=' then
      [b64index c1 * 4 + b64index c2 / 16,
       b64index c2 % 16 * 16 + b64index c3 / 4]
    else
      (b64index c1 * 4 + b64index c2 / 16) ::
        (b64index c2 % 16 * 16 + b64index c3 / 4) ::
        (b64index c3 % 4 * 64 + b64index c4) :: b64decodeList rest
  | _ => []

/-- Base64 decoding of a string. -/
def b64decode (s : String) : List Nat :=
  b64decodeList s.data

/-- The tagged envelope written for a byte buffer, and recognised on read:
an object `{type: "Buffer", data: <base64 string>}`. -/
def envelopeData : List (String × JVal) → Option String
  | [("type", .str "Buffer"), ("data", .str s)] => some s
  | _ => none

mutual
/-- Modelled from the spec: `BufferJSON.replacer` composed with
`JSON.stringify`/`JSON.parse` — the repository's `toJsonValue`.  The
`@whiskeysockets/baileys` `BufferJSON` implementation is not part of the
sources; the spec describes it as wrapping each byte buffer in a tagged
envelope on write (the data encoded base64) and leaving everything else
structural. -/
def toJsonValue : JVal → JVal
  | .null => .null
  | .bool b => .bool b
  | .num n => .num n
  | .str s => .str s
  | .buf bytes => .obj [("type", .str "Buffer"), ("data", .str (b64encode bytes))]
  | .arr items => .arr (toJsonValueList items)
  | .obj fields => .obj (toJsonValueFields fields)

/-- `toJsonValue` on the elements of an array. -/
def toJsonValueList : List JVal → List JVal
  | [] => []
  | v :: vs => toJsonValue v :: toJsonValueList vs

/-- `toJsonValue` on the values of an object's fields. -/
def toJsonValueFields : List (String × JVal) → List (String × JVal)
  | [] => []
  | (k, v) :: rest => (k, toJsonValue v) :: toJsonValueFields rest
end

mutual
/-- Modelled from the spec: `BufferJSON.reviver` composed with
`JSON.parse` — the repository's `fromJsonValue`.  Children are revived
first (`JSON.parse` revives bottom-up); an object that then carries the
buffer envelope is reconstructed into a byte buffer. -/
def fromJsonValue : JVal → JVal
  | .null => .null
  | .bool b => .bool b
  | .num n => .num n
  | .str s => .str s
  | .buf bytes => .buf bytes
  | .arr items => .arr (fromJsonValueList items)
  | .obj fields =>
    match envelopeData (fromJsonValueFields fields) with
    | some s => .buf (b64decode s)
    | none => .obj (fromJsonValueFields fields)

/-- `fromJsonValue` on the elements of an array. -/
def fromJsonValueList : List JVal → List JVal
  | [] => []
  | v :: vs => fromJsonValue v :: fromJsonValueList vs

/-- `fromJsonValue` on the values of an object's fields. -/
def fromJsonValueFields : List (String × JVal) → List (String × JVal)
  | [] => []
  | (k, v) :: rest => (k, fromJsonValue v) :: fromJsonValueFields rest
end

mutual
/-- No object anywhere in the tree is itself shaped like the buffer
envelope (`{type: "Buffer", data: <string>}`). -/
def envelopeFree : JVal → Bool
  | .null => true
  | .bool _ => true
  | .num _ => true
  | .str _ => true
  | .buf _ => true
  | .arr items => envelopeFreeList items
  | .obj fields => (envelopeData fields).isNone && envelopeFreeFields fields

/-- `envelopeFree` over array elements. -/
def envelopeFreeList : List JVal → Bool
  | [] => true
  | v :: vs => envelopeFree v && envelopeFreeList vs

/-- `envelopeFree` over object field values. -/
def envelopeFreeFields : List (String × JVal) → Bool
  | [] => true
  | (_, v) :: rest => envelopeFree v && envelopeFreeFields rest
end

mutual
/-- Every buffer in the tree holds genuine bytes (each below 256). -/
def validBytes : JVal → Bool
  | .null => true
  | .bool _ => true
  | .num _ => true
  | .str _ => true
  | .buf bytes => bytes.all (fun b => decide (b < 256))
  | .arr items => validBytesList items
  | .obj fields => validBytesFields fields

/-- `validBytes` over array elements. -/
def validBytesList : List JVal → Bool
  | [] => true
  | v :: vs => validBytes v && validBytesList vs

/-- `validBytes` over object field values. -/
def validBytesFields : List (String × JVal) → Bool
  | [] => true
  | (_, v) :: rest => validBytes v && validBytesFields rest
end

/-- `PrismaWhatsappRepository.saveCreds`: the JSON blob that reaches the
database column. -/
def saveCreds (c : JVal) : JVal :=
  toJsonValue c

/-- `PrismaWhatsappRepository.loadCreds` applied to a stored blob. -/
def loadCreds (stored : JVal) : JVal :=
  fromJsonValue stored

/-! ## Concrete fixtures used by the closed theorems -/

/-- An environment in which nothing external happens: the transaction
completes, `makeWASocket` yields a socket with no bound user yet, and no
`connection.update` or `qr` event arrives. -/
def env0 : Env :=
  ⟨"self-1", .success, Except.ok ⟨none⟩, none, none, none, false⟩

/-- An environment in which the connection opens while waiting and
`sendMessage` returns id `3EB0MSGID`. -/
def envOpen : Env :=
  ⟨"self-1", .success, Except.ok ⟨none⟩, some "user-1", none, some "3EB0MSGID", false⟩

/-- A world with one active key whose session row is `LOGGED_OUT`. -/
def wLoggedOut : World :=
  ⟨[⟨"wasap_a", true⟩], [⟨1, "wasap_a", none, .LOGGED_OUT, true⟩], [], [], 0, 2⟩

/-- A world in which another process holds a fresh lock on the session. -/
def wLockedElsewhere : World :=
  ⟨[⟨"wasap_b", true⟩], [⟨1, "wasap_b", none, .DISCONNECTED, true⟩],
   [⟨"wasap_b", "other-host-9", 0⟩], [], 1000, 2⟩

/-- A world with one active key, a disconnected session with stored
credentials, and no lock. -/
def wReady : World :=
  ⟨[⟨"wasap_c", true⟩], [⟨1, "wasap_c", none, .DISCONNECTED, true⟩], [], [], 0, 2⟩

/-- A small credential value containing a binary buffer. -/
def credSample : JVal :=
  .obj [("noiseKey", .buf [1, 255, 0]), ("registered", .bool false), ("me", .null)]

/-- A plain credential value that happens to have the envelope's shape. -/
def credCollision : JVal :=
  .obj [("type", .str "Buffer"), ("data", .str "AA==")]

/-- Extract the upstream send observation from a `sendText` outcome. -/
def sentValue (r : Except (ServiceErr × World) (SendOk × World)) : Option SendOk :=
  match r with
  | .ok (v, _) => some v
  | .error _ => none

/-! # Theorems -/

/-! ## C10: blank keys never reach the repository -/

/-- Claim C10: for every input key that is empty or consists only of
whitespace, `assertActive` fails with "API key not registered" before
performing any repository lookup (`findByKey` is never called). -/
theorem assertActive_blank_no_lookup (reg : List ApiKeyRec) (key : String)
    (h : jsTrim key = "") :
    assertActiveWithLookup reg key = (Except.error "API key not registered", false) := by
  simp [assertActiveWithLookup, h]

/-- Witness for C10 at the three-space key. -/
theorem assertActive_blank_no_lookup_witness :
    jsTrim "   " = "" ∧
      assertActiveWithLookup [⟨"wasap_live", true⟩] "   " =
        (Except.error "API key not registered", false) :=
  ⟨by decide, assertActive_blank_no_lookup [⟨"wasap_live", true⟩] "   " (by decide)⟩

/-! ## C9: missing and deactivated keys are indistinguishable -/

/-- Claim C9: when `k1` is absent from the registry and `k2` exists with
`isActive = false`, `assertActive k1` and `assertActive k2` fail with the
identical error "API key not registered". -/
theorem assertActive_missing_inactive_same (reg : List ApiKeyRec)
    (k1 k2 : String) (r : ApiKeyRec)
    (h1 : findByKey reg (jsTrim k1) = none)
    (h2 : findByKey reg (jsTrim k2) = some r)
    (hr : r.isActive = false) :
    assertActive reg k1 = Except.error "API key not registered" ∧
      assertActive reg k1 = assertActive reg k2 := by
  unfold assertActive assertActiveWithLookup
  by_cases e1 : jsTrim k1 = "" <;> by_cases e2 : jsTrim k2 = "" <;>
    simp [e1, e2, h1, h2, hr]

/-- Witness for C9: a registry holding one deactivated key. -/
theorem assertActive_missing_inactive_same_witness :
    assertActive [⟨"wasap_off", false⟩] "missing" = Except.error "API key not registered" ∧
      assertActive [⟨"wasap_off", false⟩] "missing" =
        assertActive [⟨"wasap_off", false⟩] "wasap_off" :=
  assertActive_missing_inactive_same [⟨"wasap_off", false⟩] "missing" "wasap_off"
    ⟨"wasap_off", false⟩ (by decide) (by decide) (by decide)

/-! ## C6: reconnect delay bounds and monotonicity -/

/-- Claim C6: for every attempt `n ≥ 1` and jitter below 500 ms, the
scheduled reconnect delay equals `min(30000, 1000·2^min(n−1,5))` plus the
jitter, lies in `[1000, 30500]`, and is monotone non-decreasing in `n`. -/
theorem reconnectDelay_bounds (n j : Nat) (hn : 1 ≤ n) (hj : j < 500) :
    1000 ≤ reconnectDelay n j ∧ reconnectDelay n j ≤ 30500 ∧
      ∀ m, 1 ≤ m → m ≤ n → reconnectDelay m j ≤ reconnectDelay n j := by
  have hbase : ∀ k : Nat, 1000 ≤ reconnectBaseDelay k ∧ reconnectBaseDelay k ≤ 30000 := by
    intro k
    unfold reconnectBaseDelay
    constructor
    · refine le_min (by norm_num) ?_
      have : (1 : Nat) ≤ 2 ^ (min (k - 1) 5) := Nat.one_le_two_pow
      calc (1000 : Nat) = 1000 * 1 := by ring
        _ ≤ 1000 * 2 ^ (min (k - 1) 5) := Nat.mul_le_mul_left 1000 this
    · exact min_le_left _ _
  refine ⟨?_, ?_, ?_⟩
  · have := (hbase n).1
    unfold reconnectDelay
    omega
  · have := (hbase n).2
    unfold reconnectDelay
    omega
  · intro m _ hmn
    unfold reconnectDelay reconnectBaseDelay
    have hexp : min (m - 1) 5 ≤ min (n - 1) 5 := by omega
    have hpow : 2 ^ (min (m - 1) 5) ≤ 2 ^ (min (n - 1) 5) :=
      Nat.pow_le_pow_right (by norm_num) hexp
    have := Nat.mul_le_mul_left 1000 hpow
    have := min_le_min (le_refl 30000) this
    omega

/-- Witness for C6 at attempt 3 with jitter 100. -/
theorem reconnectDelay_bounds_witness :
    1000 ≤ reconnectDelay 3 100 ∧ reconnectDelay 3 100 ≤ 30500 := by
  have h := reconnectDelay_bounds 3 100 (by decide) (by decide)
  exact ⟨h.1, h.2.1⟩

/-! ## C5: lock acquisition case analysis -/

/-- Claim C5: `acquire(apiKey, ownerId, ttl)` creates the row and returns
true when none exists; refreshes `acquiredAt` and returns true when the
existing row's owner is the caller; takes the row over and returns true
when the existing row is stale (`acquiredAt + ttl < now`); returns false
otherwise; and a transient `P2034` write-conflict fault yields `false`
rather than an exception. -/
theorem lockAcquire_cases (locks : List LockRow) (k owner : String) (ttl now : Int) :
    (findLock locks k = none →
      lockAcquire locks k owner ttl now .success =
        Except.ok (true, locks ++ [⟨k, owner, now⟩])) ∧
    (∀ r, findLock locks k = some r → r.ownerId = owner →
      lockAcquire locks k owner ttl now .success =
        Except.ok (true, writeLock locks k owner now)) ∧
    (∀ r, findLock locks k = some r → r.ownerId ≠ owner → r.acquiredAt + ttl < now →
      lockAcquire locks k owner ttl now .success =
        Except.ok (true, writeLock locks k owner now)) ∧
    (∀ r, findLock locks k = some r → r.ownerId ≠ owner → ¬(r.acquiredAt + ttl < now) →
      lockAcquire locks k owner ttl now .success = Except.ok (false, locks)) ∧
    lockAcquire locks k owner ttl now (.knownError "P2034") =
      Except.ok (false, locks) := by
  refine ⟨?_, ?_, ?_, ?_, ?_⟩
  · intro h
    simp [lockAcquire, h]
  · intro r h ho
    simp [lockAcquire, h, ho]
  · intro r h hne hstale
    have : r.acquiredAt < now - ttl := by omega
    simp [lockAcquire, h, hne, this]
  · intro r h hne hfresh
    have : ¬(r.acquiredAt < now - ttl) := by omega
    simp [lockAcquire, h, hne, this]
  · simp [lockAcquire]

/-- Witness for C5: creation on an empty table and a steal of a stale row. -/
theorem lockAcquire_cases_witness :
    lockAcquire [] "k1" "host-1" 300000 1000 .success =
        Except.ok (true, [⟨"k1", "host-1", 1000⟩]) ∧
      lockAcquire [⟨"k1", "host-2", 0⟩] "k1" "host-1" 300000 300500 .success =
        Except.ok (true, writeLock [⟨"k1", "host-2", 0⟩] "k1" "host-1" 300500) := by
  constructor
  · exact (lockAcquire_cases [] "k1" "host-1" 300000 1000).1 (by decide)
  · exact (lockAcquire_cases [⟨"k1", "host-2", 0⟩] "k1" "host-1" 300000 300500).2.2.1
      ⟨"k1", "host-2", 0⟩ (by decide) (by decide) (by decide)

/-! ## C7: `getQr` on a logged-out session is inert -/

/-- Claim C7: for a registered active key whose session row is
`LOGGED_OUT`, `getQr` returns `{apiKey, status: LOGGED_OUT}` with no `qr`
field; the only state change is the display-name upsert — the managed-session
map, the lock table and the socket are untouched, and no QR-waiter is
registered. -/
theorem getQr_loggedOut (w : World) (env : Env) (key : String)
    (dn : Option String) (record : ApiKeyRec) (row : SessionRow)
    (hne : jsTrim key ≠ "")
    (hfind : findByKey w.reg (jsTrim key) = some record)
    (hact : record.isActive = true)
    (hrow : findRow w.rows record.key = some row)
    (hst : row.status = .LOGGED_OUT) :
    getQr w env key dn =
      Except.ok (⟨record.key, .LOGGED_OUT, none⟩,
        { w with rows := w.rows.map (fun x =>
            if x.apiKey == record.key then { row with displayName := dn }
            else x) }) := by
  unfold getQr assertActive assertActiveWithLookup ensureSession
  simp [hne, hfind, hact, hrow, hst]

/-- Witness for C7 on a one-session world. -/
theorem getQr_loggedOut_witness :
    getQr wLoggedOut env0 "wasap_a" (some "Bot") =
      Except.ok (⟨"wasap_a", .LOGGED_OUT, none⟩,
        { wLoggedOut with rows := wLoggedOut.rows.map (fun x =>
            if x.apiKey == "wasap_a" then
              { (⟨1, "wasap_a", none, .LOGGED_OUT, true⟩ : SessionRow) with
                  displayName := some "Bot" }
            else x) }) :=
  getQr_loggedOut wLoggedOut env0 "wasap_a" (some "Bot")
    ⟨"wasap_a", true⟩ ⟨1, "wasap_a", none, .LOGGED_OUT, true⟩
    (by decide) (by decide) (by decide) (by decide) (by decide)

/-! ## C2: send on a logged-out session -/

/-- Claim C2 (code bug): `sendText` raises the error `"Session is logged
out"` carrying `statusCode = 409`, exactly as the claim describes, but the
route handler maps only `statusCode === 503` and two known messages, so
the endpoint answers 500 "Internal server error" instead of the claimed
409. -/
theorem sendRoute_loggedOut_500 :
    sendText wLoggedOut env0 "wasap_a" "628123456789" "hi" =
        Except.error (⟨"Session is logged out", some 409⟩, wLoggedOut) ∧
      sendRouteHandler wLoggedOut env0 "wasap_a" (some "628123456789") (some "hi") =
        (⟨500, .error "Internal server error"⟩, wLoggedOut) := by
  constructor <;> rfl

/-! ## C3: send while another process owns the lock -/

/-- Claim C3 (code bug): when the lock is held elsewhere and this process
has no live user binding, `sendText` raises the 423 error whose message
names the owning instance, but the route handler has no mapping for
`statusCode = 423` and the endpoint answers 500 "Internal server error". -/
theorem sendRoute_lockedElsewhere_500 :
    sendText wLockedElsewhere env0 "wasap_b" "628123456789" "hi" =
        Except.error
          (⟨"Session is handled by another instance (other-host-9). Use sticky routing by apiKey or single instance.",
            some 423⟩,
           { wLockedElsewhere with managed :=
               [("wasap_b",
                 ⟨⟨1, "wasap_b", none, .DISCONNECTED, true⟩, .DISCONNECTED,
                  none, none, false, 0, 0⟩)] }) ∧
      sendRouteHandler wLockedElsewhere env0 "wasap_b" (some "628123456789")
          (some "hi") =
        (⟨500, .error "Internal server error"⟩,
         { wLockedElsewhere with managed :=
             [("wasap_b",
               ⟨⟨1, "wasap_b", none, .DISCONNECTED, true⟩, .DISCONNECTED,
                none, none, false, 0, 0⟩)] }) := by
  constructor <;> rfl

/-! ## C4: the invalid-MSISDN message -/

/-- Counterexample to claim C4: for `to = "abc"` the endpoint answers 400,
but with the route's own message `"Invalid 'to' (use digits, 8-15)"`, which
is not the claimed `"Invalid 'to' (use digits, 8-15, with country code)"`
(that string lives in `WhatsappService.sendText`, behind the route's
identical check, and is unreachable from this endpoint). -/
theorem sendRoute_invalidTo_message :
    (sendRouteHandler wReady env0 "wasap_c" (some "abc") (some "hi")).1 =
        ⟨400, .error "Invalid 'to' (use digits, 8-15)"⟩ ∧
      "Invalid 'to' (use digits, 8-15)" ≠
        "Invalid 'to' (use digits, 8-15, with country code)" :=
  ⟨rfl, by decide⟩

/-- Claim C4 as amended: whenever the normalised `to` fails `^\d{8,15}$`,
the endpoint answers 400 with the exact message
`"Invalid 'to' (use digits, 8-15)"`, leaving the world unchanged. -/
theorem sendRoute_invalidTo_400 (w : World) (env : Env) (apiKey : String)
    (bodyTo bodyText : Option String)
    (h : toValid (normalizeMsisdn (bodyTo.getD "")) = false) :
    sendRouteHandler w env apiKey bodyTo bodyText =
      (⟨400, .error "Invalid 'to' (use digits, 8-15)"⟩, w) := by
  unfold sendRouteHandler
  simp [h]

/-- Witness for the amended C4 at `to = "abc"`. -/
theorem sendRoute_invalidTo_400_witness :
    sendRouteHandler wReady env0 "wasap_c" (some "abc") (some "hi") =
      (⟨400, .error "Invalid 'to' (use digits, 8-15)"⟩, wReady) :=
  sendRoute_invalidTo_400 wReady env0 "wasap_c" (some "abc") (some "hi") (by decide)

/-! ## C8: MSISDN normalisation -/

/-- No character of the strip class `[()\s-]` survives normalisation. -/
theorem normalizeMsisdn_no_stripped (s : String) :
    ((normalizeMsisdn s).data.all (fun c => !isStrippedChar c)) = true := by
  have hfilter : ∀ l : List Char,
      ((stripPunct l).all (fun c => !isStrippedChar c)) = true := by
    intro l
    simp only [stripPunct, List.all_eq_true]
    intro c hc
    exact (List.mem_filter.mp hc).2
  have hplus : ∀ l : List Char,
      (l.all (fun c => !isStrippedChar c)) = true →
        ((dropLeadingPlus l).all (fun c => !isStrippedChar c)) = true := by
    intro l hl
    unfold dropLeadingPlus
    split
    · simp only [List.all_cons, Bool.and_eq_true] at hl
      exact hl.2
    · exact hl
  have hzero : ∀ l : List Char,
      (l.all (fun c => !isStrippedChar c)) = true →
        ((zeroToCountry l).all (fun c => !isStrippedChar c)) = true := by
    intro l hl
    unfold zeroToCountry
    split
    · simp only [List.all_cons, Bool.and_eq_true] at hl ⊢
      exact ⟨by decide, by decide, hl.2⟩
    · exact hl
  show ((zeroToCountry (dropLeadingPlus (stripPunct (jsTrimList s.data)))).all
      (fun c => !isStrippedChar c)) = true
  exact hzero _ (hplus _ (hfilter _))

/-- Claim C8: normalisation removes every space, dash and parenthesis,
`"0812-345-6789"` normalises to `"628123456789"` and passes `^\d{8,15}$`,
the route delivers such a request, and the normalised form is exactly what
`sendText` hands upstream (`<msisdn>@s.whatsapp.net`). -/
theorem normalizeMsisdn_pipeline :
    (∀ s : String, ((normalizeMsisdn s).data.all (fun c => !isStrippedChar c)) = true) ∧
      normalizeMsisdn "0812-345-6789" = "628123456789" ∧
      toValid "628123456789" = true ∧
      (sendRouteHandler wReady envOpen "wasap_c" (some "0812-345-6789")
          (some "hi")).1 = ⟨200, .success "3EB0MSGID"⟩ ∧
      sentValue (sendText wReady envOpen "wasap_c" "628123456789" "hi") =
        some ⟨"628123456789@s.whatsapp.net", "hi", "3EB0MSGID"⟩ :=
  ⟨normalizeMsisdn_no_stripped, by decide, by decide, rfl, rfl⟩

/-! ## C1: the credential-store round-trip -/

/-- Structural induction for `JVal` through its nested lists. -/
theorem JVal.inductionOn {P : JVal → Prop}
    (hnull : P .null) (hbool : ∀ b, P (.bool b)) (hnum : ∀ n, P (.num n))
    (hstr : ∀ s, P (.str s)) (hbuf : ∀ bs, P (.buf bs))
    (harr : ∀ items, (∀ v ∈ items, P v) → P (.arr items))
    (hobj : ∀ fields, (∀ kv ∈ fields, P kv.2) → P (.obj fields)) :
    ∀ v, P v
  | .null => hnull
  | .bool b => hbool b
  | .num n => hnum n
  | .str s => hstr s
  | .buf bs => hbuf bs
  | .arr items => harr items (fun v hv =>
      have : sizeOf v < 1 + sizeOf items := by
        have := List.sizeOf_lt_of_mem hv
        omega
      JVal.inductionOn hnull hbool hnum hstr hbuf harr hobj v)
  | .obj fields => hobj fields (fun kv hkv =>
      have : sizeOf kv.2 < 1 + sizeOf fields := by
        have h1 := List.sizeOf_lt_of_mem hkv
        have h2 : sizeOf kv.2 < sizeOf kv := by
          cases kv with
          | mk a b => simp only [Prod.mk.sizeOf_spec]; omega
        omega
      JVal.inductionOn hnull hbool hnum hstr hbuf harr hobj kv.2)
termination_by v => sizeOf v

/-- Recovering a sextet from its base64 character. -/
theorem b64index_b64char : ∀ n : Nat, n < 64 → b64index (b64char n) = n := by
  decide

/-- No base64 alphabet character is the padding character. -/
theorem b64char_ne_pad : ∀ n : Nat, n < 64 → ¬(b64char n = '=') := by
  decide

/-- Base64 decoding inverts encoding on genuine byte lists. -/
theorem b64_roundtrip : ∀ bs : List Nat, (∀ x ∈ bs, x < 256) →
    b64decodeList (b64encodeList bs) = bs
  | [], _ => rfl
  | [a], h => by
    have ha : a < 256 := h a (by simp)
    simp only [b64encodeList, b64decodeList]
    rw [if_pos trivial]
    rw [b64index_b64char (a / 4) (by omega), b64index_b64char (a % 4 * 16) (by omega)]
    have e1 : a / 4 * 4 + a % 4 * 16 / 16 = a := by omega
    rw [e1]
  | [a, b], h => by
    have ha : a < 256 := h a (by simp)
    have hb : b < 256 := h b (by simp)
    simp only [b64encodeList, b64decodeList]
    rw [if_neg (b64char_ne_pad (b % 16 * 4) (by omega))]
    rw [if_pos trivial]
    rw [b64index_b64char (a / 4) (by omega),
        b64index_b64char (a % 4 * 16 + b / 16) (by omega),
        b64index_b64char (b % 16 * 4) (by omega)]
    have e1 : a / 4 * 4 + (a % 4 * 16 + b / 16) / 16 = a := by omega
    have e2 : (a % 4 * 16 + b / 16) % 16 * 16 + b % 16 * 4 / 4 = b := by omega
    rw [e1, e2]
  | [a, b, c], h => by
    have ha : a < 256 := h a (by simp)
    have hb : b < 256 := h b (by simp)
    have hc : c < 256 := h c (by simp)
    simp only [b64encodeList, b64decodeList]
    rw [if_neg (b64char_ne_pad _ (by omega))]
    rw [if_neg (b64char_ne_pad _ (by omega))]
    rw [b64index_b64char _ (by omega), b64index_b64char _ (by omega),
        b64index_b64char _ (by omega), b64index_b64char _ (by omega)]
    have e1 : a / 4 * 4 + (a % 4 * 16 + b / 16) / 16 = a := by omega
    have e2 : (a % 4 * 16 + b / 16) % 16 * 16 + (b % 16 * 4 + c / 64) / 4 = b := by
      omega
    have e3 : (b % 16 * 4 + c / 64) % 4 * 64 + c % 64 = c := by omega
    rw [e1, e2, e3]
  | a :: b :: c :: d :: rest, h => by
    have ha : a < 256 := h a (by simp)
    have hb : b < 256 := h b (by simp)
    have hc : c < 256 := h c (by simp)
    have ih := b64_roundtrip (d :: rest) (fun x hx => h x (by simp at hx ⊢; tauto))
    simp only [b64encodeList, b64decodeList]
    rw [if_neg (b64char_ne_pad _ (by omega))]
    rw [if_neg (b64char_ne_pad _ (by omega))]
    rw [b64index_b64char _ (by omega), b64index_b64char _ (by omega),
        b64index_b64char _ (by omega), b64index_b64char _ (by omega)]
    rw [ih]
    have e1 : a / 4 * 4 + (a % 4 * 16 + b / 16) / 16 = a := by omega
    have e2 : (a % 4 * 16 + b / 16) % 16 * 16 + (b % 16 * 4 + c / 64) / 4 = b := by
      omega
    have e3 : (b % 16 * 4 + c / 64) % 4 * 64 + c % 64 = c := by omega
    rw [e1, e2, e3]

/-- Counterexample to claim C1 as stated: the plain credential value
`{type: "Buffer", data: "AA=="}` is not a buffer, yet reading it back from
the store reconstructs the byte buffer `[0]` — the round-trip is not the
identity on all credential values. -/
theorem credRoundtrip_collision :
    loadCreds (saveCreds credCollision) = JVal.buf [0] ∧
      loadCreds (saveCreds credCollision) ≠ credCollision := by
  have h : loadCreds (saveCreds credCollision) = JVal.buf [0] := rfl
  refine ⟨h, ?_⟩
  rw [h]
  intro hcontra
  exact JVal.noConfusion hcontra

/-- Claim C1 as amended: on every credential value no plain object of which
is shaped like the buffer envelope — in particular on every genuine
credential structure containing binary byte buffers — reading the saved
value back from the store yields the value unchanged. -/
theorem credRoundtrip_id (v : JVal)
    (h1 : envelopeFree v = true) (h2 : validBytes v = true) :
    loadCreds (saveCreds v) = v := by
  unfold loadCreds saveCreds
  revert h1 h2
  induction v using JVal.inductionOn with
  | hnull => intro _ _; rfl
  | hbool b => intro _ _; rfl
  | hnum n => intro _ _; rfl
  | hstr s => intro _ _; rfl
  | hbuf bs =>
    intro _ h2
    simp only [validBytes, List.all_eq_true, decide_eq_true_eq] at h2
    simp only [toJsonValue, fromJsonValue, fromJsonValueFields, envelopeData]
    have : b64decode (b64encode bs) = bs := by
      unfold b64decode b64encode
      exact b64_roundtrip bs h2
    rw [this]
  | harr items ih =>
    intro h1 h2
    simp only [envelopeFree] at h1
    simp only [validBytes] at h2
    have hlist : ∀ l : List JVal,
        (∀ v ∈ l, envelopeFree v = true → validBytes v = true →
          fromJsonValue (toJsonValue v) = v) →
        envelopeFreeList l = true → validBytesList l = true →
        fromJsonValueList (toJsonValueList l) = l := by
      intro l
      induction l with
      | nil => intro _ _ _; rfl
      | cons v vs ihl =>
        intro hmem he hv
        simp only [envelopeFreeList, Bool.and_eq_true] at he
        simp only [validBytesList, Bool.and_eq_true] at hv
        simp only [toJsonValueList, fromJsonValueList]
        rw [hmem v (by simp) he.1 hv.1,
          ihl (fun x hx hex hvx => hmem x (by simp [hx]) hex hvx) he.2 hv.2]
    simp only [toJsonValue, fromJsonValue]
    rw [hlist items ih h1 h2]
  | hobj fields ih =>
    intro h1 h2
    simp only [envelopeFree, Bool.and_eq_true, Option.isNone_iff_eq_none] at h1
    obtain ⟨henv, hfree⟩ := h1
    simp only [validBytes] at h2
    have hfs : ∀ l : List (String × JVal),
        (∀ kv ∈ l, envelopeFree kv.2 = true → validBytes kv.2 = true →
          fromJsonValue (toJsonValue kv.2) = kv.2) →
        envelopeFreeFields l = true → validBytesFields l = true →
        fromJsonValueFields (toJsonValueFields l) = l := by
      intro l
      induction l with
      | nil => intro _ _ _; rfl
      | cons kv rest ihl =>
        intro hmem he hv
        cases kv with
        | mk k v =>
          simp only [envelopeFreeFields, Bool.and_eq_true] at he
          simp only [validBytesFields, Bool.and_eq_true] at hv
          simp only [toJsonValueFields, fromJsonValueFields]
          rw [hmem (k, v) (by simp) he.1 hv.1,
            ihl (fun x hx hex hvx => hmem x (by simp [hx]) hex hvx) he.2 hv.2]
    simp only [toJsonValue, fromJsonValue]
    rw [hfs fields ih hfree h2, henv]

/-- Witness for the amended C1 on a credential value with a binary
buffer. -/
theorem credRoundtrip_id_witness :
    envelopeFree credSample = true ∧ validBytes credSample = true ∧
      loadCreds (saveCreds credSample) = credSample :=
  ⟨rfl, rfl, credRoundtrip_id credSample rfl rfl⟩

end Wasap
